import Mathlib

/-!
Shallow embedding of the run-orchestration core of the ava-open-source
test runner (src/lib/api.js): the TimeoutTrigger watchdog, the event
handlers installed by Api.run (fail-fast, timeout firing, interrupt),
concurrency resolution, the partition splitter used for distributed
parallel runs, and the control flow of Api.run itself (test-file
selection, the run announcement, the early bail-out and finalization).

Times and counters are modelled as Nat; the JS number used for the
configured concurrency is modelled as Int (it can be absent or
non-positive, which compares false under "> 0" as in JS). Fallible
JS code is modelled with Except: a promise rejection is an Except.error.

Node.js timer semantics relied upon by TimeoutTrigger (setTimeout,
clearTimeout, and Timeout.prototype.refresh) are modelled explicitly:
clearTimeout nulls the timer's callback, and refresh re-arms the
deadline of the existing timer object without restoring a nulled
callback. This matches the comment inside TimeoutTrigger.discard in
the source ("this.timer is not cleared so if debounce() is called
after it will not run again").
-/

namespace Ava

/-- Errors raised by the JavaScript code: a TypeError raised by reading a
property of undefined, or an arbitrary user-level error value carried by a
rejected promise. -/
inductive JsError where
  | typeError
  | userError (code : Nat)
deriving DecidableEq, Repr

/-- One Node.js Timeout object, as returned by setTimeout (via the
setCappedTimeout wrapper). The alive flag records whether the callback
registered with setTimeout is still attached: clearTimeout nulls it, and
Timeout.refresh re-arms the deadline without restoring it. The deadline is
the absolute time at which the underlying timer will next fire, none when
it is not scheduled. -/
structure TimerHandle where
  alive : Bool
  deadline : Option Nat
deriving DecidableEq, Repr

/-- The TimeoutTrigger watchdog of src/lib/api.js (lines 43-74): a
debounced, suppressible idle timer. The timer field is none while the
JS field is undefined, i.e. before the first debounce. -/
structure TimeoutTrigger where
  ignoreUntil : Nat
  waitMs : Nat
  timer : Option TimerHandle
deriving DecidableEq, Repr

/-- TimeoutTrigger.debounce (api.js lines 51-57): when no timer object
exists yet, schedule a fresh one at now + waitMs; otherwise refresh the
existing object, which re-arms its deadline but leaves a callback nulled
by clearTimeout nulled. -/
def TimeoutTrigger.debounce (t : TimeoutTrigger) (now : Nat) : TimeoutTrigger :=
  match t.timer with
  | none => { t with timer := some ⟨true, some (now + t.waitMs)⟩ }
  | some h => { t with timer := some { h with deadline := some (now + t.waitMs) } }

/-- TimeoutTrigger.discard (api.js lines 59-63): clearTimeout on the
stored timer. The timer field itself is not reset to undefined;
clearTimeout nulls the timer's callback and unschedules it. -/
def TimeoutTrigger.discard (t : TimeoutTrigger) : TimeoutTrigger :=
  match t.timer with
  | none => t
  | some _ => { t with timer := some ⟨false, none⟩ }

/-- TimeoutTrigger.ignoreFor (api.js lines 65-67): raise the ignore
horizon to max(ignoreUntil, now + periodMs). -/
def TimeoutTrigger.ignoreFor (t : TimeoutTrigger) (now periodMs : Nat) : TimeoutTrigger :=
  { t with ignoreUntil := max t.ignoreUntil (now + periodMs) }

/-- Whether the underlying timer firing at time now reaches the trigger's
fn: the Timeout object must exist with its callback still attached
(alive), its deadline must be due, and TimeoutTrigger.trigger (api.js
lines 69-73) only invokes fn when now is at or past ignoreUntil. -/
def TimeoutTrigger.fireInvokes (t : TimeoutTrigger) (now : Nat) : Bool :=
  match t.timer with
  | some h => h.alive && h.deadline.any (fun d => decide (d ≤ now)) && decide (t.ignoreUntil ≤ now)
  | none => false

/-- State of the trigger after the underlying timer fires at time now:
the one-shot deadline is consumed; neither trigger() nor the timer itself
reschedules anything. -/
def TimeoutTrigger.afterFire (t : TimeoutTrigger) (now : Nat) : TimeoutTrigger :=
  match t.timer with
  | some h =>
      if h.deadline.any (fun d => decide (d ≤ now)) then
        { t with timer := some { h with deadline := none } }
      else t
  | none => t

/-- The callback stored in the trigger's timer object has been nulled by
clearTimeout, so no firing can ever reach fn again. -/
def TimeoutTrigger.callbackDead (t : TimeoutTrigger) : Bool :=
  match t.timer with
  | some h => !h.alive
  | none => false

/-- An operation performed on a TimeoutTrigger over its lifetime. -/
inductive TriggerOp where
  | debounce (now : Nat)
  | ignoreFor (now periodMs : Nat)
  | discard
  | fire (now : Nat)
deriving DecidableEq, Repr

def applyOp (t : TimeoutTrigger) : TriggerOp → TimeoutTrigger
  | .debounce now => t.debounce now
  | .ignoreFor now p => t.ignoreFor now p
  | .discard => t.discard
  | .fire now => t.afterFire now

def applyOps (t : TimeoutTrigger) (ops : List TriggerOp) : TimeoutTrigger :=
  ops.foldl applyOp t

/-- The state-change record types that matter to the orchestrator's
handlers; every other record type behaves like otherRecord. -/
inductive EventType where
  | testPassed
  | testFailed
  | hookFailed
  | workerFailed
  | workerFinished
  | workerStdout
  | workerStderr
  | testTimeoutConfigured
  | otherRecord (tag : Nat)
deriving DecidableEq, Repr

/-- api.js line 227: the record types that trigger the fail-fast bail. -/
def isFailureType : EventType → Bool
  | .hookFailed => true
  | .testFailed => true
  | .workerFailed => true
  | _ => false

/-- An entry of the Run Status event stream, as far as the orchestrator
produces or observes it: a worker-originated state-change record tagged
with its test file, or one of the synthetic events the orchestrator
injects. -/
inductive RunEvent where
  | workerRecord (file : String) (ty : EventType)
  | timeout (period : Nat)
  | interrupt
deriving DecidableEq, Repr

def isTimeoutEvent : RunEvent → Bool
  | .timeout _ => true
  | _ => false

/-- Number of timeout events in a Run Status event stream. -/
def countTimeouts (events : List RunEvent) : Nat :=
  events.countP isTimeoutEvent

/-- One Worker Handle as the orchestrator sees it: its test file plus
counters of the notifyOfPeerFailure() and exit() calls it has received. -/
structure Worker where
  file : String
  notifyCount : Nat
  exitCount : Nat
deriving DecidableEq, Repr

/-- The configuration fields of Api.run that drive the modelled handlers.
timeout is the ms-converted configured timeout duration, none when the
option is unset (falsy). -/
structure Config where
  failFast : Bool
  debug : Bool
  timeout : Option Nat
deriving DecidableEq, Repr

/-- api.js line 107: the watchdog gets the real callback only when a
timeout is configured and debug mode is off; otherwise its callback is
a no-op. -/
def Config.watchdogActive (c : Config) : Bool :=
  c.timeout.isSome && !c.debug

/-- api.js lines 107-126: construction of the run's timeoutTrigger. The
no-op branch leaves waitMs at its default of 0. -/
def mkTrigger (c : Config) : TimeoutTrigger :=
  match c.timeout, c.debug with
  | some t, false => ⟨0, t, none⟩
  | _, _ => ⟨0, 0, none⟩

/-- The mutable state owned by one invocation of Api.run while workers
execute: the bailed flag, the set of pending Worker Handles, the files of
workers that were force-exited by the watchdog, the watchdog itself, and
the Run Status event stream produced so far. -/
structure OrchState where
  bailed : Bool
  pendingWorkers : List Worker
  timedOutWorkerFiles : List String
  trigger : TimeoutTrigger
  events : List RunEvent
deriving DecidableEq, Repr

/-- A worker-originated state-change record arriving at the orchestrator.
Two handlers observe it, in registration order: the fork-level handler of
api.js lines 285-289 (test-timeout-configured extends the watchdog's
ignore horizon unless debugging), and the Run Status stateChange handler
of api.js lines 221-236 (debounce the watchdog for qualifying records;
under fail-fast, a failure record sets bailed and notifies every pending
Worker Handle of the peer failure). The record itself is re-emitted on
the Run Status stream. -/
def onWorkerEvent (c : Config) (now : Nat) (file : String) (ty : EventType)
    (period : Nat) (s : OrchState) : OrchState :=
  let s1 : OrchState := if ty = .testTimeoutConfigured ∧ c.debug = false then
      { s with trigger := s.trigger.ignoreFor now period } else s
  let s2 : OrchState := { s1 with events := s1.events ++ [.workerRecord file ty] }
  let s3 : OrchState := if file ≠ "" ∧ file ∉ s2.timedOutWorkerFiles
      ∧ ty ≠ .workerStderr ∧ ty ≠ .workerStdout then
      { s2 with trigger := s2.trigger.debounce now } else s2
  if c.failFast = true ∧ isFailureType ty = true then
    { s3 with
      bailed := true
      pendingWorkers := s3.pendingWorkers.map
        fun w => { w with notifyCount := w.notifyCount + 1 } }
  else s3

/-- The body of the watchdog callback in api.js lines 110-123, invoked
with the ms-converted timeout period: bail if fail-fast is active, emit
one timeout event carrying the period, then record every pending worker's
file as timed out and force-exit it. -/
def timeoutCallback (c : Config) (period : Nat) (s : OrchState) : OrchState :=
  let s1 : OrchState := if c.failFast = true then { s with bailed := true } else s
  let s2 : OrchState := { s1 with events := s1.events ++ [.timeout period] }
  { s2 with
    timedOutWorkerFiles := s2.timedOutWorkerFiles ++ s2.pendingWorkers.map (fun w => w.file)
    pendingWorkers := s2.pendingWorkers.map fun w => { w with exitCount := w.exitCount + 1 } }

/-- The underlying Node timer reaching time now: the trigger's fn runs
only when fireInvokes holds, and the fn is the real watchdog callback
only when a timeout is configured and debug is off (api.js lines
107-126); otherwise the fn is a no-op. -/
def onTimerFire (c : Config) (now : Nat) (s : OrchState) : OrchState :=
  let invoked := s.trigger.fireInvokes now
  let s1 : OrchState := { s with trigger := s.trigger.afterFire now }
  if invoked then
    match c.timeout with
    | some period => if c.debug = false then timeoutCallback c period s1 else s1
    | none => s1
  else s1

/-- The interrupt handler installed by Api.run (api.js lines 128-145):
a no-op when already bailed; otherwise set bailed, discard the watchdog,
emit one interrupt event and force-exit every pending Worker Handle. -/
def onInterrupt (s : OrchState) : OrchState :=
  if s.bailed = true then s
  else
    { s with
      bailed := true
      trigger := s.trigger.discard
      events := s.events ++ [.interrupt]
      pendingWorkers := s.pendingWorkers.map fun w => { w with exitCount := w.exitCount + 1 } }

/-- The start of the pMap body for one file (api.js lines 261-299): when
bailed, return without spawning; otherwise fork the worker, add it to the
pending set and debounce the watchdog. -/
def onSpawn (now : Nat) (file : String) (s : OrchState) : OrchState :=
  if s.bailed = true then s
  else
    { s with
      pendingWorkers := s.pendingWorkers ++ [⟨file, 0, 0⟩]
      trigger := s.trigger.debounce now }

/-- Resolution of a worker's completion promise (api.js lines 294-296):
the worker is removed from the pending set. -/
def onWorkerDone (file : String) (s : OrchState) : OrchState :=
  { s with pendingWorkers := s.pendingWorkers.filter fun w => w.file ≠ file }

/-- The actions that drive the orchestrator's state while workers run. -/
inductive Action where
  | workerEvent (now : Nat) (file : String) (ty : EventType) (period : Nat)
  | timerFire (now : Nat)
  | interrupt
  | spawn (now : Nat) (file : String)
  | workerDone (file : String)
deriving DecidableEq, Repr

def step (c : Config) (s : OrchState) : Action → OrchState
  | .workerEvent now file ty period => onWorkerEvent c now file ty period s
  | .timerFire now => onTimerFire c now s
  | .interrupt => onInterrupt s
  | .spawn now file => onSpawn now file s
  | .workerDone file => onWorkerDone file s

def steps (c : Config) (s : OrchState) (acts : List Action) : OrchState :=
  acts.foldl (step c) s

/-- Concurrency resolution of api.js lines 246-256: start from the host's
logical core count floored at 1, then serial forces 1, else an explicitly
configured positive concurrency wins, else CI yields 2. -/
def resolveConcurrency (serial : Bool) (concurrency : Int) (ci : Bool) (cpuCount : Nat) : Int :=
  let c : Int := max 1 (cpuCount : Int)
  if serial = true then 1
  else if 0 < concurrency then concurrency
  else if ci = true then 2
  else c

/-- The concurrency precedence exactly as claim C2 states it: an
explicitly configured positive concurrency value wins; otherwise serial
mode forces 1; otherwise CI yields 2; otherwise the core count floored
at 1. Written from the spec's words, to be compared with
resolveConcurrency, which is written from the source. -/
def claimedConcurrency (serial : Bool) (concurrency : Int) (ci : Bool) (cpuCount : Nat) : Int :=
  if 0 < concurrency then concurrency
  else if serial = true then 1
  else if ci = true then 2
  else max 1 (cpuCount : Int)

/-- Offset of partition index within a list of len elements split into
total contiguous chunks whose sizes differ by at most one. -/
def chunkOffset (len total index : Nat) : Nat :=
  index * (len / total) + min index (len % total)

/-- Modelled from the spec: the Partition Splitter (section 4.4), provided
by the external chunkd dependency, which is not under src/. Given the full
sorted file list, a zero-based job index and a total job count, it returns
the contiguous deterministic subset assigned to that index, such that
across all indices the subsets partition the input with no omissions or
duplicates. -/
def chunkd (m : List α) (index total : Nat) : List α :=
  (m.drop (chunkOffset m.length total index)).take
    (chunkOffset m.length total (index + 1) - chunkOffset m.length total index)

/-- The order a JS comparator induces: a sorts no later than b when the
comparator returns a non-positive number. -/
def comparatorRel (comparator : String → String → Int) (a b : String) : Prop :=
  comparator a b ≤ 0

instance (comparator : String → String → Int) :
    DecidableRel (comparatorRel comparator) :=
  fun a b => inferInstanceAs (Decidable (comparator a b ≤ 0))

/-- Array.prototype.sort with a comparator, as used on the selected files
in api.js lines 180-191: a stable sort that permutes its input for every
comparator. The comparator is either the caller-supplied sortTestFiles or
the default numeric-aware localeCompare. -/
def sortFiles (comparator : String → String → Int) (files : List String) : List String :=
  List.insertionSort (comparatorRel comparator) files

/-- Modelled from the spec: scheduler.failingTestsFirst (src/lib/scheduler.js
is not under src/), the Failure Cache reorder of section 4.3: moves files
from the last-known-failing set to the front and is the identity when the
cache is disabled or empty. The cache is empty in this model, so the
reorder is the identity; only the length and emptiness of its result
matter to the claims below. -/
def failingTestsFirst (files : List String) : List String := files

/-- The inputs of the test-file selection phase of Api.run (api.js lines
149-165), with the results of the external collaborators (globs.findTests,
the caller's testFileSelector, globs.applyTestFileFilter) given as oracles:
an Except.error is the collaborator throwing. -/
structure SelectionInput where
  findTests : Except JsError (List String)
  testFileSelector : Option (Except JsError (List String))
  selectedFiles : List String
  filter : List String
  applyTestFileFilter : Except JsError (List String)

/-- The selection try/catch of api.js lines 149-165. Returns the value of
the testFiles local (none when findTests itself threw, leaving the local
undefined), the selected files, and the remembered setupOrGlobError. -/
def selectPhase (i : SelectionInput) :
    Option (List String) × List String × Option JsError :=
  match i.findTests with
  | .error e => (none, [], some e)
  | .ok testFiles =>
    match i.testFileSelector with
    | some (.ok sel) => (some testFiles, sel, none)
    | some (.error e) => (some testFiles, [], some e)
    | none =>
      if i.selectedFiles.isEmpty then
        if i.filter.isEmpty then (some testFiles, testFiles, none)
        else
          match i.applyTestFileFilter with
          | .ok fs => (some testFiles, fs, none)
          | .error e => (some testFiles, [], some e)
      else (some testFiles, i.selectedFiles, none)

/-- The inputs that drive the control flow of one Api.run invocation. -/
structure RunInput where
  sel : SelectionInput
  parallelRuns : Option (Nat × Nat)
  comparator : String → String → Int
  hasCustomSort : Bool
  debugConfigured : Bool
  debugActive : Bool
  executionError : Option JsError

/-- What one Api.run invocation did, as far as the lifecycle claims are
concerned: how many run announcements it emitted, how many internal-error
events it injected, how many times RunStatus.end() ran, whether a status
object was returned, the size of the final selection, whether a selection
error was remembered, and the bailWithoutReporting flag of the run
announcement. -/
structure RunOutcome where
  runAnnouncements : Nat
  internalErrors : Nat
  endCalls : Nat
  statusReturned : Bool
  selectionCount : Nat
  hadSetupError : Bool
  bailWithoutReporting : Bool
deriving DecidableEq, Repr

/-- The selected files as they stand when the run announcement is emitted
(api.js lines 174-198): distributed runs sort the selection and take this
job's partition; otherwise a configured custom sorter is applied; then the
Failure Cache reorder runs. -/
def selectedAfterScheduling (inp : RunInput) (selected0 : List String) : List String :=
  failingTestsFirst (match inp.parallelRuns with
    | some (currentIndex, totalRuns) =>
        chunkd (sortFiles inp.comparator selected0) currentIndex totalRuns
    | none =>
        if inp.hasCustomSort then sortFiles inp.comparator selected0 else selected0)

/-- api.js line 198: debugging is requested, no specific breakpoint is
active, and the selection is not exactly one file. -/
def debugWithoutSpecificFile (inp : RunInput) (selected : List String) : Bool :=
  inp.debugConfigured && !inp.debugActive && selected.length != 1

/-- The control flow of Api.run (api.js lines 91-314) at the granularity
of the lifecycle claims. After the selection try/catch, selectionInsights
reads testFiles.length: when findTests threw, the testFiles local is
undefined and the read raises a TypeError that escapes run (nothing below
catches it). Otherwise the second try block runs: the selection is
scheduled (partitioned, sorted, reordered), the run announcement is
emitted, a remembered selection error is re-thrown (caught by the outer
catch, which injects one internal-error event, after which end() runs),
the empty-selection / debug-without-a-single-file check returns the
status directly, skipping end(), and otherwise the worker phase runs, any
error it throws being caught and surfaced as one internal-error event
before end(). -/
def apiRun (inp : RunInput) : Except JsError RunOutcome :=
  match selectPhase inp.sel with
  | (none, _, _) => .error .typeError
  | (some _, selected0, setupOrGlobError) =>
    match setupOrGlobError with
    | some _ =>
        .ok ⟨1, 1, 1, true, (selectedAfterScheduling inp selected0).length, true,
          debugWithoutSpecificFile inp (selectedAfterScheduling inp selected0)⟩
    | none =>
      if (selectedAfterScheduling inp selected0).length = 0
          ∨ debugWithoutSpecificFile inp (selectedAfterScheduling inp selected0) = true then
        .ok ⟨1, 0, 0, true, (selectedAfterScheduling inp selected0).length, false,
          debugWithoutSpecificFile inp (selectedAfterScheduling inp selected0)⟩
      else
        match inp.executionError with
        | some _ =>
            .ok ⟨1, 1, 1, true, (selectedAfterScheduling inp selected0).length, false,
              debugWithoutSpecificFile inp (selectedAfterScheduling inp selected0)⟩
        | none =>
            .ok ⟨1, 0, 1, true, (selectedAfterScheduling inp selected0).length, false,
              debugWithoutSpecificFile inp (selectedAfterScheduling inp selected0)⟩

/-- A run state in which the watchdog can never make noise again: the run
has bailed (so no spawn ever debounces a fresh timer into existence) and
the trigger's timer object exists with its callback nulled. The interrupt
handler establishes this state whenever the trigger had a timer. -/
def Silenced (s : OrchState) : Prop :=
  s.bailed = true ∧ s.trigger.callbackDead = true

theorem debounce_ignoreUntil (t : TimeoutTrigger) (now : Nat) :
    (t.debounce now).ignoreUntil = t.ignoreUntil := by
  cases h : t.timer <;> simp [TimeoutTrigger.debounce, h]

theorem callbackDead_debounce (t : TimeoutTrigger) (now : Nat)
    (h : t.callbackDead = true) : (t.debounce now).callbackDead = true := by
  cases htimer : t.timer with
  | none => simp [TimeoutTrigger.callbackDead, htimer] at h
  | some hh => simp_all [TimeoutTrigger.callbackDead, TimeoutTrigger.debounce, htimer]

theorem callbackDead_ignoreFor (t : TimeoutTrigger) (now p : Nat)
    (h : t.callbackDead = true) : (t.ignoreFor now p).callbackDead = true := h

theorem callbackDead_afterFire (t : TimeoutTrigger) (now : Nat)
    (h : t.callbackDead = true) : (t.afterFire now).callbackDead = true := by
  cases htimer : t.timer with
  | none => simp [TimeoutTrigger.callbackDead, htimer] at h
  | some hh =>
    simp [TimeoutTrigger.callbackDead, htimer] at h
    simp [TimeoutTrigger.afterFire, htimer]
    split_ifs <;> simp [TimeoutTrigger.callbackDead, htimer, h]

theorem callbackDead_fireInvokes (t : TimeoutTrigger) (now : Nat)
    (h : t.callbackDead = true) : t.fireInvokes now = false := by
  cases htimer : t.timer with
  | none => simp [TimeoutTrigger.fireInvokes, htimer]
  | some hh =>
    simp [TimeoutTrigger.callbackDead, htimer] at h
    simp [TimeoutTrigger.fireInvokes, htimer, h]

theorem callbackDead_applyOp (t : TimeoutTrigger) (op : TriggerOp)
    (h : t.callbackDead = true) : (applyOp t op).callbackDead = true := by
  cases op with
  | debounce now => exact callbackDead_debounce t now h
  | ignoreFor now p => exact callbackDead_ignoreFor t now p h
  | discard =>
    cases htimer : t.timer with
    | none => simp [TimeoutTrigger.callbackDead, htimer] at h
    | some hh => simp [applyOp, TimeoutTrigger.discard, TimeoutTrigger.callbackDead, htimer]
  | fire now => exact callbackDead_afterFire t now h

theorem callbackDead_applyOps (t : TimeoutTrigger) (ops : List TriggerOp)
    (h : t.callbackDead = true) : (applyOps t ops).callbackDead = true := by
  induction ops generalizing t with
  | nil => exact h
  | cons op ops ih => exact ih (applyOp t op) (callbackDead_applyOp t op h)

theorem discard_callbackDead (t : TimeoutTrigger) (h : t.timer.isSome = true) :
    t.discard.callbackDead = true := by
  cases htimer : t.timer with
  | none => simp [htimer] at h
  | some hh => simp [TimeoutTrigger.discard, TimeoutTrigger.callbackDead, htimer]

/-- Claim C6: ignoreFor(P) called at time T updates the ignore horizon to
max(currentHorizon, T+P), so the horizon only ever moves forward; and when
the scheduled deadline fires at a time strictly before the ignore horizon,
the callback is not invoked and no new timer is scheduled, so the watchdog
stays silent until a subsequent debounce(). -/
theorem ava_c6_watchdog_ignore :
    (∀ (t : TimeoutTrigger) (now p : Nat),
      (t.ignoreFor now p).ignoreUntil = max t.ignoreUntil (now + p) ∧
      t.ignoreUntil ≤ (t.ignoreFor now p).ignoreUntil) ∧
    (∀ (t : TimeoutTrigger) (now : Nat) (h : TimerHandle) (d : Nat),
      t.timer = some h → h.deadline = some d → d ≤ now → now < t.ignoreUntil →
      t.fireInvokes now = false ∧
      (t.afterFire now).timer = some ⟨h.alive, none⟩ ∧
      (t.afterFire now).ignoreUntil = t.ignoreUntil) := by
  constructor
  · intro t now p
    exact ⟨rfl, by simp [TimeoutTrigger.ignoreFor]⟩
  · intro t now h d htimer hdl hdue hlt
    have hnle : ¬ (t.ignoreUntil ≤ now) := by omega
    refine ⟨?_, ?_, ?_⟩
    · simp [TimeoutTrigger.fireInvokes, htimer, hdl, hnle]
    · simp [TimeoutTrigger.afterFire, htimer, hdl, hdue]
    · simp [TimeoutTrigger.afterFire, htimer, hdl, hdue]

theorem ava_c6_watchdog_ignore_witness :
    ((⟨10, 5, some ⟨true, some 3⟩⟩ : TimeoutTrigger).ignoreFor 4 2).ignoreUntil
      = max 10 (4 + 2) ∧
    (⟨10, 5, some ⟨true, some 3⟩⟩ : TimeoutTrigger).fireInvokes 4 = false :=
  ⟨(ava_c6_watchdog_ignore.1 ⟨10, 5, some ⟨true, some 3⟩⟩ 4 2).1,
   (ava_c6_watchdog_ignore.2 ⟨10, 5, some ⟨true, some 3⟩⟩ 4 ⟨true, some 3⟩ 3
      rfl rfl (by decide) (by decide)).1⟩

/-- Claim C7 counterexample: after discard() has cancelled a scheduled
timer, a subsequent debounce() does re-arm the timer object's deadline at
now + wait, but the firing at that deadline never invokes the callback,
because clearTimeout nulled it and refresh does not restore it — so the
claim that the watchdog can fire again after discard() is false. -/
theorem ava_c7_counterexample :
    ¬ (∀ (t : TimeoutTrigger) (now : Nat), t.timer.isSome = true →
        ((t.discard).debounce now).fireInvokes (now + t.waitMs) = true) := by
  intro hclaim
  have h := hclaim ((⟨0, 100, none⟩ : TimeoutTrigger).debounce 0) 5 (by decide)
  revert h
  decide

/-- Claim C7 (amended): discard() cancels any pending timer and, for the
trigger object it was called on, the cancellation is permanent: a
subsequent debounce() re-arms the underlying timer's deadline, but the
callback was nulled by clearTimeout, so no sequence of later debounce,
ignoreFor or firing operations ever invokes the callback again — exactly
as the source comment inside discard() states. -/
theorem ava_c7_discard_permanent (t : TimeoutTrigger) (h : t.timer.isSome = true) :
    ∀ (ops : List TriggerOp) (now : Nat),
      (applyOps t.discard ops).fireInvokes now = false := by
  intro ops now
  exact callbackDead_fireInvokes _ _ (callbackDead_applyOps _ _ (discard_callbackDead t h))

theorem ava_c7_discard_permanent_witness :
    (applyOps (TimeoutTrigger.discard ⟨0, 100, some ⟨true, some 100⟩⟩)
      [.debounce 5, .ignoreFor 6 1000, .fire 105, .debounce 200]).fireInvokes 300 = false :=
  ava_c7_discard_permanent ⟨0, 100, some ⟨true, some 100⟩⟩ (by decide)
    [.debounce 5, .ignoreFor 6 1000, .fire 105, .debounce 200] 300

theorem onWorkerEvent_timedOut (c : Config) (now : Nat) (file : String) (ty : EventType)
    (period : Nat) (s : OrchState) :
    (onWorkerEvent c now file ty period s).timedOutWorkerFiles = s.timedOutWorkerFiles := by
  simp only [onWorkerEvent]
  split_ifs <;> rfl

theorem onWorkerEvent_bailed (c : Config) (now : Nat) (file : String) (ty : EventType)
    (period : Nat) (s : OrchState) :
    (onWorkerEvent c now file ty period s).bailed
      = if c.failFast = true ∧ isFailureType ty = true then true else s.bailed := by
  simp only [onWorkerEvent]
  split_ifs <;> rfl

theorem onWorkerEvent_pending (c : Config) (now : Nat) (file : String) (ty : EventType)
    (period : Nat) (s : OrchState) :
    (onWorkerEvent c now file ty period s).pendingWorkers
      = if c.failFast = true ∧ isFailureType ty = true
        then s.pendingWorkers.map (fun w => { w with notifyCount := w.notifyCount + 1 })
        else s.pendingWorkers := by
  simp only [onWorkerEvent]
  split_ifs <;> rfl

theorem onWorkerEvent_events (c : Config) (now : Nat) (file : String) (ty : EventType)
    (period : Nat) (s : OrchState) :
    (onWorkerEvent c now file ty period s).events
      = s.events ++ [.workerRecord file ty] := by
  simp only [onWorkerEvent]
  split_ifs <;> rfl

theorem onWorkerEvent_timer_timedOut (c : Config) (now : Nat) (file : String)
    (ty : EventType) (period : Nat) (s : OrchState)
    (h : file ∈ s.timedOutWorkerFiles) :
    (onWorkerEvent c now file ty period s).trigger.timer = s.trigger.timer := by
  simp only [onWorkerEvent]
  split_ifs <;> simp_all [TimeoutTrigger.ignoreFor, TimeoutTrigger.debounce]

theorem onWorkerEvent_trigger_callbackDead (c : Config) (now : Nat) (file : String)
    (ty : EventType) (period : Nat) (s : OrchState)
    (h : s.trigger.callbackDead = true) :
    (onWorkerEvent c now file ty period s).trigger.callbackDead = true := by
  simp only [onWorkerEvent]
  split_ifs <;>
    first
      | exact h
      | exact callbackDead_debounce _ _ h

theorem onTimerFire_not_invoked (c : Config) (now : Nat) (s : OrchState)
    (h : s.trigger.fireInvokes now = false) :
    onTimerFire c now s = { s with trigger := s.trigger.afterFire now } := by
  simp [onTimerFire, h]

theorem onTimerFire_inactive (c : Config) (hc : c.timeout = none ∨ c.debug = true)
    (now : Nat) (s : OrchState) :
    onTimerFire c now s = { s with trigger := s.trigger.afterFire now } := by
  rcases hc with h | h
  · simp [onTimerFire, h]
  · cases hT : c.timeout <;> simp [onTimerFire, h, hT]

theorem onTimerFire_invoked (c : Config) (now period : Nat) (s : OrchState)
    (hT : c.timeout = some period) (hdbg : c.debug = false)
    (hfire : s.trigger.fireInvokes now = true) :
    onTimerFire c now s
      = timeoutCallback c period { s with trigger := s.trigger.afterFire now } := by
  simp [onTimerFire, hT, hdbg, hfire]

theorem timeoutCallback_fields (c : Config) (period : Nat) (s : OrchState) :
    (timeoutCallback c period s).bailed = (c.failFast || s.bailed) ∧
    (timeoutCallback c period s).events = s.events ++ [.timeout period] ∧
    (timeoutCallback c period s).pendingWorkers
      = s.pendingWorkers.map (fun w => { w with exitCount := w.exitCount + 1 }) ∧
    (timeoutCallback c period s).timedOutWorkerFiles
      = s.timedOutWorkerFiles ++ s.pendingWorkers.map (fun w => w.file) ∧
    (timeoutCallback c period s).trigger = s.trigger := by
  simp only [timeoutCallback]
  cases hcf : c.failFast <;> simp [hcf]

theorem step_bailed_mono (c : Config) (s : OrchState) (a : Action)
    (h : s.bailed = true) : (step c s a).bailed = true := by
  cases a with
  | workerEvent now file ty period =>
    show (onWorkerEvent c now file ty period s).bailed = true
    rw [onWorkerEvent_bailed]
    split_ifs <;> simp [h]
  | timerFire now =>
    show (onTimerFire c now s).bailed = true
    by_cases hf : s.trigger.fireInvokes now = true
    · cases hT : c.timeout with
      | none => rw [onTimerFire_inactive c (Or.inl hT)]; exact h
      | some period =>
        cases hdbg : c.debug with
        | true => rw [onTimerFire_inactive c (Or.inr hdbg)]; exact h
        | false =>
          rw [onTimerFire_invoked c now period s hT hdbg hf,
            (timeoutCallback_fields c period _).1]
          simp [h]
    · rw [onTimerFire_not_invoked c now s (by simpa using hf)]; exact h
  | interrupt =>
    show (onInterrupt s).bailed = true
    unfold onInterrupt
    split_ifs <;> simp [h]
  | spawn now file =>
    show (onSpawn now file s).bailed = true
    unfold onSpawn
    split_ifs <;> simp [h]
  | workerDone file => exact h

theorem steps_bailed_mono (c : Config) (s : OrchState) (acts : List Action)
    (h : s.bailed = true) : (steps c s acts).bailed = true := by
  induction acts generalizing s with
  | nil => exact h
  | cons a acts ih => exact ih (step c s a) (step_bailed_mono c s a h)

theorem step_timedOut_mono (c : Config) (s : OrchState) (a : Action) (f : String)
    (h : f ∈ s.timedOutWorkerFiles) : f ∈ (step c s a).timedOutWorkerFiles := by
  cases a with
  | workerEvent now file ty period =>
    show f ∈ (onWorkerEvent c now file ty period s).timedOutWorkerFiles
    rw [onWorkerEvent_timedOut]; exact h
  | timerFire now =>
    show f ∈ (onTimerFire c now s).timedOutWorkerFiles
    by_cases hf : s.trigger.fireInvokes now = true
    · cases hT : c.timeout with
      | none => rw [onTimerFire_inactive c (Or.inl hT)]; exact h
      | some period =>
        cases hdbg : c.debug with
        | true => rw [onTimerFire_inactive c (Or.inr hdbg)]; exact h
        | false =>
          rw [onTimerFire_invoked c now period s hT hdbg hf,
            (timeoutCallback_fields c period _).2.2.2.1]
          exact List.mem_append_left _ h
    · rw [onTimerFire_not_invoked c now s (by simpa using hf)]; exact h
  | interrupt =>
    show f ∈ (onInterrupt s).timedOutWorkerFiles
    unfold onInterrupt
    split_ifs <;> exact h
  | spawn now file =>
    show f ∈ (onSpawn now file s).timedOutWorkerFiles
    unfold onSpawn
    split_ifs <;> exact h
  | workerDone file => exact h

theorem steps_timedOut_mono (c : Config) (s : OrchState) (acts : List Action) (f : String)
    (h : f ∈ s.timedOutWorkerFiles) : f ∈ (steps c s acts).timedOutWorkerFiles := by
  induction acts generalizing s with
  | nil => exact h
  | cons a acts ih => exact ih (step c s a) (step_timedOut_mono c s a f h)

theorem silenced_step (c : Config) (s : OrchState) (a : Action) (h : Silenced s) :
    Silenced (step c s a) ∧
    countTimeouts (step c s a).events = countTimeouts s.events := by
  obtain ⟨hb, hd⟩ := h
  cases a with
  | workerEvent now file ty period =>
    refine ⟨⟨step_bailed_mono c s _ hb,
      onWorkerEvent_trigger_callbackDead c now file ty period s hd⟩, ?_⟩
    show countTimeouts (onWorkerEvent c now file ty period s).events = _
    rw [onWorkerEvent_events]
    simp [countTimeouts, List.countP_append, List.countP_cons, isTimeoutEvent]
  | timerFire now =>
    have hf : s.trigger.fireInvokes now = false := callbackDead_fireInvokes _ _ hd
    show Silenced (onTimerFire c now s) ∧ countTimeouts (onTimerFire c now s).events = _
    rw [onTimerFire_not_invoked c now s hf]
    exact ⟨⟨hb, callbackDead_afterFire _ _ hd⟩, rfl⟩
  | interrupt =>
    show Silenced (onInterrupt s) ∧ countTimeouts (onInterrupt s).events = _
    unfold onInterrupt
    rw [if_pos hb]
    exact ⟨⟨hb, hd⟩, rfl⟩
  | spawn now file =>
    show Silenced (onSpawn now file s) ∧ countTimeouts (onSpawn now file s).events = _
    unfold onSpawn
    rw [if_pos hb]
    exact ⟨⟨hb, hd⟩, rfl⟩
  | workerDone file => exact ⟨⟨hb, hd⟩, rfl⟩

theorem silenced_steps (c : Config) (s : OrchState) (acts : List Action) (h : Silenced s) :
    Silenced (steps c s acts) ∧
    countTimeouts (steps c s acts).events = countTimeouts s.events := by
  induction acts generalizing s with
  | nil => exact ⟨h, rfl⟩
  | cons a acts ih =>
    obtain ⟨h1, h2⟩ := silenced_step c s a h
    obtain ⟨h3, h4⟩ := ih (step c s a) h1
    exact ⟨h3, h4.trans h2⟩

/-- Claim C5: The interrupt handler is idempotent: invoking it while bailed
is already true is a complete no-op (no state change, no events, no worker
exits); otherwise a single invocation sets bailed to true, discards the
watchdog so no timeout can fire afterwards (stated for a watchdog whose
timer object exists, which is the case whenever any worker has been
spawned or any qualifying event has debounced it), emits exactly one
interrupt event, and calls forced exit() on every pending Worker Handle. -/
theorem ava_c5_interrupt_idempotent (c : Config) (s : OrchState) :
    (s.bailed = true → onInterrupt s = s) ∧
    (s.bailed = false →
      (onInterrupt s).bailed = true ∧
      (onInterrupt s).events = s.events ++ [.interrupt] ∧
      (onInterrupt s).pendingWorkers
        = s.pendingWorkers.map (fun w => { w with exitCount := w.exitCount + 1 }) ∧
      (onInterrupt s).trigger = s.trigger.discard ∧
      (s.trigger.timer.isSome = true →
        ∀ acts : List Action,
          countTimeouts (steps c (onInterrupt s) acts).events
            = countTimeouts s.events)) := by
  constructor
  · intro hb
    unfold onInterrupt
    rw [if_pos hb]
  · intro hb
    have hnot : ¬ (s.bailed = true) := by simp [hb]
    have hI : onInterrupt s
        = { s with
            bailed := true
            trigger := s.trigger.discard
            events := s.events ++ [.interrupt]
            pendingWorkers := s.pendingWorkers.map
              fun w => { w with exitCount := w.exitCount + 1 } } := by
      unfold onInterrupt
      rw [if_neg hnot]
    refine ⟨by rw [hI], by rw [hI], by rw [hI], by rw [hI], ?_⟩
    intro hsome acts
    have hsil : Silenced (onInterrupt s) := by
      rw [hI]
      exact ⟨rfl, discard_callbackDead s.trigger hsome⟩
    have h2 := (silenced_steps c (onInterrupt s) acts hsil).2
    rw [h2, hI]
    simp [countTimeouts, List.countP_append, List.countP_cons, isTimeoutEvent]

theorem ava_c5_interrupt_idempotent_witness :
    onInterrupt ⟨true, [], [], ⟨0, 0, none⟩, []⟩ = ⟨true, [], [], ⟨0, 0, none⟩, []⟩ ∧
    (onInterrupt ⟨false, [⟨"a", 1, 0⟩], [], ⟨0, 50, some ⟨true, some 60⟩⟩, []⟩).events
      = [] ++ [.interrupt] ∧
    countTimeouts (steps ⟨true, false, some 50⟩
        (onInterrupt ⟨false, [⟨"a", 1, 0⟩], [], ⟨0, 50, some ⟨true, some 60⟩⟩, []⟩)
        [.workerEvent 70 "a" .workerFinished 0, .timerFire 200, .spawn 201 "b"]).events
      = countTimeouts ([] : List RunEvent) := by
  refine ⟨(ava_c5_interrupt_idempotent ⟨true, false, some 50⟩ _).1 rfl,
    ((ava_c5_interrupt_idempotent ⟨true, false, some 50⟩ _).2 rfl).2.1,
    ((ava_c5_interrupt_idempotent ⟨true, false, some 50⟩
      ⟨false, [⟨"a", 1, 0⟩], [], ⟨0, 50, some ⟨true, some 60⟩⟩, []⟩).2 rfl).2.2.2.2 rfl _⟩

/-- Claim C3 counterexample: with fail-fast enabled, a Worker Handle that
is still pending across two failure reports receives two
notifyOfPeerFailure calls — one per failure event — so the claim that
every already-pending handle receives exactly one such call for the rest
of the run is false. -/
theorem ava_c3_counterexample :
    (steps ⟨true, false, none⟩
        ⟨false, [⟨"a", 0, 0⟩, ⟨"b", 0, 0⟩], [], ⟨0, 0, none⟩, []⟩
        [.workerEvent 1 "a" .testFailed 0, .workerEvent 2 "b" .testFailed 0]).pendingWorkers
      = [⟨"a", 2, 0⟩, ⟨"b", 2, 0⟩] ∧
    ¬ (∀ w ∈ (steps ⟨true, false, none⟩
          ⟨false, [⟨"a", 0, 0⟩, ⟨"b", 0, 0⟩], [], ⟨0, 0, none⟩, []⟩
          [.workerEvent 1 "a" .testFailed 0, .workerEvent 2 "b" .testFailed 0]).pendingWorkers,
        w.notifyCount = 1) := by
  constructor
  · rfl
  · decide

/-- Claim C3 (amended): with fail-fast enabled, a hook-failed, test-failed
or worker-failed report sets bailed to true and bailed stays true for the
rest of the run; no Worker Handle is spawned by the pool while bailed; and
each such failure event sends exactly one notifyOfPeerFailure call (and no
exit call) to every Worker Handle pending at that moment — a handle that
stays pending across several failure events is notified once per event. -/
theorem ava_c3_failfast_bail (c : Config) (s : OrchState) (now period : Nat)
    (file : String) (ty : EventType)
    (hff : c.failFast = true) (hty : isFailureType ty = true) :
    (onWorkerEvent c now file ty period s).bailed = true ∧
    (onWorkerEvent c now file ty period s).pendingWorkers
      = s.pendingWorkers.map (fun w => { w with notifyCount := w.notifyCount + 1 }) ∧
    (∀ acts : List Action,
      (steps c (onWorkerEvent c now file ty period s) acts).bailed = true) ∧
    (∀ (s2 : OrchState) (n : Nat) (f : String),
      s2.bailed = true → step c s2 (.spawn n f) = s2) := by
  have hcond : c.failFast = true ∧ isFailureType ty = true := ⟨hff, hty⟩
  refine ⟨?_, ?_, ?_, ?_⟩
  · rw [onWorkerEvent_bailed, if_pos hcond]
  · rw [onWorkerEvent_pending, if_pos hcond]
  · intro acts
    exact steps_bailed_mono c _ acts (by rw [onWorkerEvent_bailed, if_pos hcond])
  · intro s2 n f hb
    show onSpawn n f s2 = s2
    unfold onSpawn
    rw [if_pos hb]

theorem ava_c3_failfast_bail_witness :
    (onWorkerEvent ⟨true, false, none⟩ 1 "a" .testFailed 0
        ⟨false, [⟨"a", 0, 0⟩, ⟨"b", 0, 0⟩], [], ⟨0, 0, none⟩, []⟩).bailed = true ∧
    (steps ⟨true, false, none⟩
        (onWorkerEvent ⟨true, false, none⟩ 1 "a" .testFailed 0
          ⟨false, [⟨"a", 0, 0⟩, ⟨"b", 0, 0⟩], [], ⟨0, 0, none⟩, []⟩)
        [.workerDone "a", .spawn 3 "c"]).bailed = true ∧
    step ⟨true, false, none⟩ ⟨true, [], [], ⟨0, 0, none⟩, []⟩ (.spawn 3 "c")
      = ⟨true, [], [], ⟨0, 0, none⟩, []⟩ := by
  refine ⟨(ava_c3_failfast_bail ⟨true, false, none⟩
      ⟨false, [⟨"a", 0, 0⟩, ⟨"b", 0, 0⟩], [], ⟨0, 0, none⟩, []⟩ 1 0 "a" .testFailed rfl rfl).1,
    (ava_c3_failfast_bail ⟨true, false, none⟩
      ⟨false, [⟨"a", 0, 0⟩, ⟨"b", 0, 0⟩], [], ⟨0, 0, none⟩, []⟩ 1 0 "a" .testFailed rfl rfl).2.2.1 _,
    (ava_c3_failfast_bail ⟨true, false, none⟩
      ⟨false, [⟨"a", 0, 0⟩, ⟨"b", 0, 0⟩], [], ⟨0, 0, none⟩, []⟩ 1 0 "a" .testFailed rfl rfl).2.2.2
      ⟨true, [], [], ⟨0, 0, none⟩, []⟩ 3 "c" rfl⟩

/-- Claim C4: when the idle-timeout watchdog fires (the timer is due, its
callback is attached, and the ignore horizon has passed), with a timeout
configured and debug off, it sets bailed to true exactly when fail-fast is
active (and never unsets it), emits exactly one timeout event carrying the
configured period, calls forced exit() — never notifyOfPeerFailure() — on
every Worker Handle pending at that moment, and records each such worker's
file in the timed-out set, membership in which is preserved by every later
step and makes later events from those files skip the watchdog debounce. -/
theorem ava_c4_timeout_fire (c : Config) (s : OrchState) (now period : Nat)
    (hT : c.timeout = some period) (hdbg : c.debug = false)
    (hfire : s.trigger.fireInvokes now = true) :
    (onTimerFire c now s).bailed = (c.failFast || s.bailed) ∧
    (s.bailed = false → ((onTimerFire c now s).bailed = true ↔ c.failFast = true)) ∧
    (onTimerFire c now s).events = s.events ++ [.timeout period] ∧
    (onTimerFire c now s).pendingWorkers
      = s.pendingWorkers.map (fun w => { w with exitCount := w.exitCount + 1 }) ∧
    (onTimerFire c now s).timedOutWorkerFiles
      = s.timedOutWorkerFiles ++ s.pendingWorkers.map (fun w => w.file) ∧
    (∀ (s2 : OrchState) (n p : Nat) (f : String) (ty : EventType),
      f ∈ s2.timedOutWorkerFiles →
      (onWorkerEvent c n f ty p s2).trigger.timer = s2.trigger.timer) ∧
    (∀ (s2 : OrchState) (f : String) (acts : List Action),
      f ∈ s2.timedOutWorkerFiles → f ∈ (steps c s2 acts).timedOutWorkerFiles) := by
  rw [onTimerFire_invoked c now period s hT hdbg hfire]
  obtain ⟨h1, h2, h3, h4, h5⟩ :=
    timeoutCallback_fields c period { s with trigger := s.trigger.afterFire now }
  refine ⟨h1, ?_, h2, h3, h4, ?_, ?_⟩
  · intro hb
    rw [h1]
    cases hcf : c.failFast <;> simp [hb]
  · intro s2 n p f ty hf
    exact onWorkerEvent_timer_timedOut c n f ty p s2 hf
  · intro s2 f acts hf
    exact steps_timedOut_mono c s2 acts f hf

theorem ava_c4_timeout_fire_witness :
    (onTimerFire ⟨true, false, some 50⟩ 10
        ⟨false, [⟨"a", 0, 0⟩], [], ⟨0, 50, some ⟨true, some 10⟩⟩, []⟩).events
      = [] ++ [.timeout 50] ∧
    (onTimerFire ⟨true, false, some 50⟩ 10
        ⟨false, [⟨"a", 0, 0⟩], [], ⟨0, 50, some ⟨true, some 10⟩⟩, []⟩).pendingWorkers
      = [⟨"a", 0, 1⟩] ∧
    (onWorkerEvent ⟨true, false, some 50⟩ 11 "a" .testPassed 0
        ⟨true, [⟨"a", 0, 1⟩], ["a"], ⟨0, 50, some ⟨true, none⟩⟩, []⟩).trigger.timer
      = some ⟨true, none⟩ := by
  refine ⟨(ava_c4_timeout_fire ⟨true, false, some 50⟩
      ⟨false, [⟨"a", 0, 0⟩], [], ⟨0, 50, some ⟨true, some 10⟩⟩, []⟩ 10 50
      rfl rfl (by decide)).2.2.1,
    (ava_c4_timeout_fire ⟨true, false, some 50⟩
      ⟨false, [⟨"a", 0, 0⟩], [], ⟨0, 50, some ⟨true, some 10⟩⟩, []⟩ 10 50
      rfl rfl (by decide)).2.2.2.1,
    (ava_c4_timeout_fire ⟨true, false, some 50⟩
      ⟨false, [⟨"a", 0, 0⟩], [], ⟨0, 50, some ⟨true, some 10⟩⟩, []⟩ 10 50
      rfl rfl (by decide)).2.2.2.2.2.1
      ⟨true, [⟨"a", 0, 1⟩], ["a"], ⟨0, 50, some ⟨true, none⟩⟩, []⟩ 11 0 "a" .testPassed
      (by decide)⟩

theorem inactive_step_countTimeouts (c : Config) (hc : c.timeout = none ∨ c.debug = true)
    (s : OrchState) (a : Action) :
    countTimeouts (step c s a).events = countTimeouts s.events := by
  cases a with
  | workerEvent now file ty period =>
    show countTimeouts (onWorkerEvent c now file ty period s).events = _
    rw [onWorkerEvent_events]
    simp [countTimeouts, List.countP_append, List.countP_cons, isTimeoutEvent]
  | timerFire now =>
    show countTimeouts (onTimerFire c now s).events = _
    rw [onTimerFire_inactive c hc]
  | interrupt =>
    show countTimeouts (onInterrupt s).events = _
    unfold onInterrupt
    split_ifs <;>
      simp [countTimeouts, List.countP_append, List.countP_cons, isTimeoutEvent]
  | spawn now file =>
    show countTimeouts (onSpawn now file s).events = _
    unfold onSpawn
    split_ifs <;> rfl
  | workerDone file => rfl

theorem inactive_steps_countTimeouts (c : Config) (hc : c.timeout = none ∨ c.debug = true)
    (s : OrchState) (acts : List Action) :
    countTimeouts (steps c s acts).events = countTimeouts s.events := by
  induction acts generalizing s with
  | nil => rfl
  | cons a acts ih =>
    exact (ih (step c s a)).trans (inactive_step_countTimeouts c hc s a)

/-- Claim C10: when debug mode is active, or when no timeout duration is
configured, the watchdog's callback is a no-op: a firing changes nothing
except consuming the timer's deadline — no timeout event is ever emitted
on any trace and no pending worker is ever force-exited by the watchdog;
additionally, in debug mode a worker's test-timeout-configured
notification does not extend the watchdog's ignore horizon. -/
theorem ava_c10_inactive_watchdog (c : Config)
    (hc : c.timeout = none ∨ c.debug = true) :
    (∀ (now : Nat) (s : OrchState),
      (onTimerFire c now s).events = s.events ∧
      (onTimerFire c now s).pendingWorkers = s.pendingWorkers ∧
      (onTimerFire c now s).bailed = s.bailed ∧
      (onTimerFire c now s).timedOutWorkerFiles = s.timedOutWorkerFiles) ∧
    (∀ (s : OrchState) (acts : List Action),
      countTimeouts (steps c s acts).events = countTimeouts s.events) ∧
    (c.debug = true → ∀ (now period : Nat) (file : String) (s : OrchState),
      (onWorkerEvent c now file .testTimeoutConfigured period s).trigger.ignoreUntil
        = s.trigger.ignoreUntil) := by
  refine ⟨?_, ?_, ?_⟩
  · intro now s
    rw [onTimerFire_inactive c hc]
    exact ⟨rfl, rfl, rfl, rfl⟩
  · intro s acts
    exact inactive_steps_countTimeouts c hc s acts
  · intro hdbg now period file s
    simp only [onWorkerEvent]
    split_ifs <;> simp_all [debounce_ignoreUntil]

theorem ava_c10_inactive_watchdog_witness :
    (onTimerFire ⟨false, true, some 5⟩ 9
        ⟨false, [⟨"a", 0, 0⟩], [], ⟨0, 5, some ⟨true, some 9⟩⟩, []⟩).events = [] ∧
    countTimeouts (steps ⟨false, true, some 5⟩
        ⟨false, [⟨"a", 0, 0⟩], [], ⟨0, 5, some ⟨true, some 9⟩⟩, []⟩
        [.timerFire 9, .workerEvent 10 "a" .testFailed 0, .timerFire 20]).events
      = countTimeouts ([] : List RunEvent) ∧
    (onWorkerEvent ⟨false, true, some 5⟩ 3 "a" .testTimeoutConfigured 400
        ⟨false, [], [], ⟨7, 5, none⟩, []⟩).trigger.ignoreUntil = 7 := by
  refine ⟨((ava_c10_inactive_watchdog ⟨false, true, some 5⟩ (Or.inr rfl)).1 9 _).1,
    (ava_c10_inactive_watchdog ⟨false, true, some 5⟩ (Or.inr rfl)).2.1 _ _,
    (ava_c10_inactive_watchdog ⟨false, true, some 5⟩ (Or.inr rfl)).2.2 rfl 3 400 "a"
      ⟨false, [], [], ⟨7, 5, none⟩, []⟩⟩

/-- Claim C2 counterexample: when serial mode is on and a positive
concurrency is explicitly configured, the source resolves concurrency to 1
(serial is checked first), while the claimed precedence resolves it to the
configured value — the claim's precedence order is wrong. -/
theorem ava_c2_counterexample :
    resolveConcurrency true 3 false 4 = 1 ∧
    claimedConcurrency true 3 false 4 = 3 ∧
    resolveConcurrency true 3 false 4 ≠ claimedConcurrency true 3 false 4 := by
  refine ⟨rfl, rfl, ?_⟩
  decide

/-- Claim C2 (amended): serial mode wins first and forces concurrency 1;
otherwise an explicitly configured positive concurrency value wins;
otherwise a CI-detected environment yields 2; otherwise the host's
reported logical core count with a floor of 1. Outside the overlap of
serial mode with an explicit positive concurrency, this agrees with the
precedence the claim states. -/
theorem ava_c2_concurrency (serial : Bool) (concurrency : Int) (ci : Bool)
    (cpuCount : Nat) :
    (serial = true → resolveConcurrency serial concurrency ci cpuCount = 1) ∧
    (serial = false → 0 < concurrency →
      resolveConcurrency serial concurrency ci cpuCount = concurrency) ∧
    (serial = false → ¬ 0 < concurrency → ci = true →
      resolveConcurrency serial concurrency ci cpuCount = 2) ∧
    (serial = false → ¬ 0 < concurrency → ci = false →
      resolveConcurrency serial concurrency ci cpuCount = max 1 (cpuCount : Int)) ∧
    1 ≤ max 1 (cpuCount : Int) ∧
    (¬ (serial = true ∧ 0 < concurrency) →
      resolveConcurrency serial concurrency ci cpuCount
        = claimedConcurrency serial concurrency ci cpuCount) := by
  refine ⟨?_, ?_, ?_, ?_, le_max_left 1 _, ?_⟩ <;>
    (intros
     simp only [resolveConcurrency, claimedConcurrency]
     split_ifs <;> simp_all)

theorem ava_c2_concurrency_witness :
    resolveConcurrency true 0 false 4 = 1 ∧
    resolveConcurrency false 3 true 4 = 3 ∧
    resolveConcurrency false 0 true 4 = 2 ∧
    resolveConcurrency false 0 false 4 = max 1 (4 : Int) ∧
    resolveConcurrency false 3 true 4 = claimedConcurrency false 3 true 4 := by
  refine ⟨(ava_c2_concurrency true 0 false 4).1 rfl,
    (ava_c2_concurrency false 3 true 4).2.1 rfl (by decide),
    (ava_c2_concurrency false 0 true 4).2.2.1 rfl (by decide) rfl,
    (ava_c2_concurrency false 0 false 4).2.2.2.1 rfl (by decide) rfl,
    (ava_c2_concurrency false 3 true 4).2.2.2.2.2 (by decide)⟩

theorem chunkOffset_mono (len total k : Nat) :
    chunkOffset len total k ≤ chunkOffset len total (k + 1) := by
  unfold chunkOffset
  rw [Nat.add_mul]
  omega

theorem chunkd_take (m : List α) (total k : Nat) :
    (List.range k).flatMap (fun i => chunkd m i total)
      = m.take (chunkOffset m.length total k) := by
  induction k with
  | zero => simp [chunkOffset]
  | succ k ih =>
    rw [List.range_succ, List.flatMap_append, ih]
    have hmono := chunkOffset_mono m.length total k
    have heq : chunkOffset m.length total (k + 1)
        = chunkOffset m.length total k
          + (chunkOffset m.length total (k + 1) - chunkOffset m.length total k) := by
      omega
    rw [heq, List.take_add]
    simp [chunkd]

theorem chunkd_join (m : List α) (total : Nat) (ht : 0 < total) :
    (List.range total).flatMap (fun i => chunkd m i total) = m := by
  rw [chunkd_take m total total]
  have h1 : m.length % total < total := Nat.mod_lt _ ht
  have h3 := Nat.div_add_mod m.length total
  have h2 : chunkOffset m.length total total = m.length := by
    unfold chunkOffset
    have h4 : min total (m.length % total) = m.length % total := by omega
    rw [h4]
    omega
  rw [h2, List.take_length]

/-- Claim C9: in a distributed parallel run the selected files are first
sorted with the configured comparator (the caller-supplied one, or the
default numeric-aware lexical compare) and then deterministically chunked
by job index; for every positive total run count and the same input list,
concatenating the chunks for indices 0..N-1 yields exactly the sorted
list, which is a permutation of the input — each input file appears
exactly once, with no omissions or duplicates. -/
theorem ava_c9_partition (comparator : String → String → Int)
    (files : List String) (totalRuns : Nat) (ht : 0 < totalRuns) :
    (List.range totalRuns).flatMap
        (fun currentIndex =>
          chunkd (sortFiles comparator files) currentIndex totalRuns)
      = sortFiles comparator files ∧
    List.Perm (sortFiles comparator files) files :=
  ⟨chunkd_join (sortFiles comparator files) totalRuns ht,
   List.perm_insertionSort (comparatorRel comparator) files⟩

theorem ava_c9_partition_witness :
    (List.range 2).flatMap
        (fun currentIndex =>
          chunkd (sortFiles (fun _ _ => 0) ["b.js", "a.js", "c.js"]) currentIndex 2)
      = sortFiles (fun _ _ => 0) ["b.js", "a.js", "c.js"] ∧
    List.Perm (sortFiles (fun _ _ => 0) ["b.js", "a.js", "c.js"])
      ["b.js", "a.js", "c.js"] :=
  ava_c9_partition (fun _ _ => 0) ["b.js", "a.js", "c.js"] 2 (by decide)

/-- Claim C1 (code bug): when test-file discovery itself fails
(globs.findTests rejects), the catch block remembers the error but leaves
the testFiles local undefined, so building selectionInsights reads
testFiles.length and raises a TypeError that escapes Api.run before any
run announcement: the returned promise rejects instead of surfacing the
error as an internal-error event on the Run Status stream. When the
failure instead happens during filtering (here, the caller's
testFileSelector throws), the deferral works as the claim states: exactly
one run announcement, then one internal-error event, and a finalized
status is returned. -/
theorem ava_c1_selection_error :
    apiRun ⟨⟨.error (.userError 7), none, [], [], .ok []⟩,
      none, fun _ _ => 0, false, false, false, none⟩ = .error .typeError ∧
    apiRun ⟨⟨.ok ["t1.js"], some (.error (.userError 7)), [], [], .ok []⟩,
      none, fun _ _ => 0, false, false, false, none⟩
      = .ok ⟨1, 1, 1, true, 0, true, false⟩ :=
  ⟨rfl, rfl⟩

/-- Claim C8 counterexample: a run whose selection is empty takes the
early bail-out of api.js lines 216-219 and returns the Run Status without
ever calling end() — so the claim that the status is always finalized via
end() before run returns it is false. -/
theorem ava_c8_counterexample :
    ¬ (∀ (inp : RunInput) (out : RunOutcome),
        apiRun inp = .ok out → out.endCalls = 1) := by
  intro hclaim
  have h := hclaim
    ⟨⟨.ok [], none, [], [], .ok []⟩, none, fun _ _ => 0, false, false, false, none⟩
    ⟨1, 0, 0, true, 0, false, false⟩ rfl
  simp at h

/-- Claim C8 (amended): whenever Api.run resolves (rather than rejecting
with the discovery-phase TypeError of claim C1), it returns a status
object and emits exactly one run announcement; the status is finalized
via end() exactly once before run returns it, except on the
empty-selection / debug-without-a-single-specific-file short-circuit,
where the not-yet-finalized status is returned directly and end() is
never called. -/
theorem ava_c8_run_finalization (inp : RunInput) (out : RunOutcome)
    (h : apiRun inp = .ok out) :
    out.statusReturned = true ∧ out.runAnnouncements = 1 ∧
    out.endCalls
      = (if out.hadSetupError = false
            ∧ (out.selectionCount = 0 ∨ out.bailWithoutReporting = true)
          then 0 else 1) := by
  unfold apiRun at h
  split at h
  · exact Except.noConfusion h
  · split at h
    · injection h with h
      subst h
      simp
    · split at h
      · injection h with h
        subst h
        simp_all
      · split at h <;>
          (injection h with h
           subst h
           simp_all)

theorem ava_c8_run_finalization_witness :
    (⟨1, 0, 1, true, 1, false, false⟩ : RunOutcome).statusReturned = true ∧
    (⟨1, 0, 1, true, 1, false, false⟩ : RunOutcome).endCalls
      = (if (⟨1, 0, 1, true, 1, false, false⟩ : RunOutcome).hadSetupError = false
            ∧ ((⟨1, 0, 1, true, 1, false, false⟩ : RunOutcome).selectionCount = 0
              ∨ (⟨1, 0, 1, true, 1, false, false⟩ : RunOutcome).bailWithoutReporting = true)
          then 0 else 1) :=
  ⟨(ava_c8_run_finalization
      ⟨⟨.ok ["t1.js"], none, [], [], .ok []⟩, none, fun _ _ => 0, false, false, false, none⟩
      ⟨1, 0, 1, true, 1, false, false⟩ rfl).1,
   (ava_c8_run_finalization
      ⟨⟨.ok ["t1.js"], none, [], [], .ok []⟩, none, fun _ _ => 0, false, false, false, none⟩
      ⟨1, 0, 1, true, 1, false, false⟩ rfl).2.2⟩

end Ava
